import Mathlib

/-!
Shallow embedding of `src/main.rs` of the steamid_created_api repository.

The service resolves the creation timestamp of a steamid64. The handler
`lookup_steam_id` parses the `steamid64` query parameter as an `i64`,
consults the MySQL cache (`check_cache`), on a miss performs one Steam Web
API call, on a found `timecreated` caches it (`cache_result`, which calls
`.unwrap()` on the sqlx result) and returns it with error 0, and otherwise
falls back to `estimate_from_db`, which runs a nearest-two SQL query and
linearly interpolates.

Modelling conventions:
- `i64` values are modelled as `Int`.  The claims under study stay far from
  the 64-bit boundaries, and the Rust arithmetic involved
  (`upper_time - lower_time`, `steamid64 - lower_id`, the final addition)
  does not overflow on any input considered here.
- `f64` arithmetic in the estimator is modelled by exact rational
  arithmetic (`ℚ`) with truncation toward zero for the `as i64` casts.
  For every concrete value appearing in the claims the `f64` computation
  is exact (integers below 2^53, divisions with exact dyadic/short
  results), so the rational model agrees with the Rust code there.  The
  rational model is faithful only while the slope's divisor
  `upper_id - lower_id` is nonzero (in `ℚ`, `x / 0 = 0`, whereas `f64`
  yields `±inf`/NaN followed by saturating casts); the development
  therefore never evaluates the estimator at a zero divisor: the table's
  identifiers are unique (the key column; `lookup_preserves_key_nodup`
  shows the handler maintains this), and `nearest_two_distinct_ids` shows
  the two reference points then always carry distinct identifiers.
- The database table `steam_ids` is a list of `(steamid64, timecreated)`
  rows.  The SQL nearest-two query (`ORDER BY ABS(steamid64 - ?) ASC
  LIMIT 2`) is modelled by a stable sort on absolute distance followed by
  `take 2`; MySQL leaves the order of equidistant rows unspecified, and
  theorems touching a tie cover both orders explicitly.
- The sqlx `INSERT ... .execute(pool).await.unwrap()` in `cache_result`
  can fail (duplicate key, storage unreachable); the store's answer to the
  insert is an explicit input (`insertErr`), and `.unwrap()` on an error is
  a panic, modelled as `response = none` in `RunResult`.
- `STEAM_API_KEY` is read with `expect` on every request; the deployment
  requirement that it is set is assumed (the key value itself is
  irrelevant to control flow and is not modelled).
- The single outbound HTTP interaction is modelled by `SteamApi`: the send
  can fail, otherwise a status (success or not) and a body are observed.
-/

/-- Rows of the `steam_ids` table: `(steamid64, timecreated)` pairs. -/
abbrev Db := List (Int × Int)

/-- Errors the backing store can report on `INSERT` (duplicate key, or
storage unreachable). -/
inductive StoreError where
  | conflict
  | unavailable
deriving DecidableEq, Repr

/-- Body of a Steam Web API HTTP response, as far as the handler inspects
it: not JSON at all, JSON without a readable
`response.players[0].timecreated` field, or JSON with that field. -/
inductive ApiBody where
  | notJson
  | jsonMissing
  | jsonTimecreated (ts : Int)
deriving DecidableEq, Repr

/-- Outcome of the one outbound HTTP call in `lookup_steam_id`: the send
itself can fail (`client.get(&url).send()` returns `Err`), otherwise a
response with a status (`is_success`) and a body is observed. -/
inductive SteamApi where
  | sendErr
  | resp (success : Bool) (body : ApiBody)
deriving DecidableEq, Repr

/-- EstimationResult of `estimate_from_db` (struct `EstimationResult`). -/
structure EstimationResult where
  timecreated : Int
  error : Int
deriving DecidableEq, Repr

/-- HTTP responses the handler produces.  `okJson` is the serialized
`SteamIDResponse { steamid64, timecreated, error }`. -/
inductive Response where
  | badRequest (body : String)
  | internalError (body : String)
  | okJson (steamid64 : String) (timecreated : Int) (error : Int)
deriving DecidableEq, Repr

/-- Result of one handler execution: the HTTP response (`none` when the
handler panicked via `.unwrap()`), the table contents afterwards, and
counters of the upstream HTTP calls, cache read queries (`SELECT`s) and
cache write attempts (`INSERT`s) performed. -/
structure RunResult where
  response : Option Response
  db : Db
  upstreamCalls : Nat
  cacheReads : Nat
  cacheWrites : Nat
deriving DecidableEq, Repr

/-- Digits of an ASCII decimal numeral; `none` on the empty string or any
non-digit character, matching `i64::from_str`. -/
def parseDigits : List Char → Option Nat
  | [] => none
  | [c] => if c.isDigit then some (c.toNat - 48) else none
  | c :: rest =>
    if c.isDigit then
      (parseDigits rest).map (fun n => (c.toNat - 48) * 10 ^ rest.length + n)
    else none

/-- Rust `str::parse::<i64>()`: an optional sign followed by at least one
ASCII digit, rejected when the value overflows `i64`. -/
def parse_i64 (s : String) : Option Int :=
  match s.toList with
  | [] => none
  | c :: rest =>
    let signed : Bool × List Char :=
      if c = '-' then (true, rest)
      else if c = '+' then (false, rest)
      else (false, c :: rest)
    match parseDigits signed.2 with
    | none => none
    | some n =>
      if signed.1 then
        if (n : Int) ≤ 2 ^ 63 then some (-(n : Int)) else none
      else
        if (n : Int) ≤ 2 ^ 63 - 1 then some (n : Int) else none

/-- Embedding of `check_cache`: `SELECT timecreated FROM steam_ids WHERE
steamid64 = ?` with `fetch_optional` — the first row with that key, if
any. -/
def check_cache (db : Db) (steamid64 : Int) : Option Int :=
  (db.find? (fun p => p.1 == steamid64)).map (fun p => p.2)

/-- Embedding of `cache_result`: `INSERT INTO steam_ids ... .unwrap()`.
The store's reply to the insert is the explicit input `insertErr`; on
success the row is appended, and on any store error the `.unwrap()`
panics, modelled as `none`. -/
def cache_result (db : Db) (steamid64 timecreated : Int)
    (insertErr : Option StoreError) : Option Db :=
  match insertErr with
  | none => some (db ++ [(steamid64, timecreated)])
  | some _ => none

/-- Distance of a row's key from the target, `ABS(steamid64 - ?)`. -/
def rowDist (target : Int) (p : Int × Int) : Nat :=
  (p.1 - target).natAbs

/-- Stable insertion into a list sorted by distance from `target`. -/
def insertByDist (target : Int) (p : Int × Int) :
    List (Int × Int) → List (Int × Int)
  | [] => [p]
  | q :: qs =>
    if rowDist target p ≤ rowDist target q then p :: q :: qs
    else q :: insertByDist target p qs

/-- Stable sort of the table by `ABS(steamid64 - ?) ASC`. -/
def sortByDist (target : Int) : Db → List (Int × Int)
  | [] => []
  | p :: ps => insertByDist target p (sortByDist target ps)

/-- Embedding of the SQL in `estimate_from_db`: order all rows by absolute
distance from the target ascending and keep the first two (`LIMIT 2`).
MySQL's order among equidistant rows is unspecified; this model breaks
ties by table order (a stable sort). -/
def nearest_two (db : Db) (steamid64 : Int) : List (Int × Int) :=
  (sortByDist steamid64 db).take 2

/-- Truncation toward zero of a rational, the semantics of Rust's
`as i64` cast from `f64` for finite in-range values. -/
def ratTrunc (q : ℚ) : Int :=
  q.num.tdiv (q.den : Int)

/-- Embedding of `calculate_error_range`: `((t_b - t_a)/(id_b - id_a) *
(target - id_a)).abs() as i64`, with `f64` modelled by `ℚ`.  Faithful
whenever `upper_id ≠ lower_id`; no theorem below evaluates it at equal
identifiers (see `nearest_two_distinct_ids`). -/
def calculate_error_range (target_id lower_id lower_time upper_id
    upper_time : Int) : Int :=
  let local_slope : ℚ :=
    ((upper_time : ℚ) - (lower_time : ℚ)) /
      ((upper_id : ℚ) - (lower_id : ℚ))
  let delta_id : ℚ := (target_id : ℚ) - (lower_id : ℚ)
  ratTrunc |local_slope * delta_id|

/-- Embedding of `estimate_from_db`: run the nearest-two query; if it
returned exactly two rows, take them in the returned order as
`(lower_id, lower_time)` and `(upper_id, upper_time)`, interpolate on the
local slope, and pair the estimate with `calculate_error_range`; otherwise
`None`.  The `ℚ` model of the `f64` arithmetic is faithful whenever
`upper_id ≠ lower_id`; no theorem below evaluates it at equal identifiers
(see `nearest_two_distinct_ids`). -/
def estimate_from_db (db : Db) (steamid64 : Int) : Option EstimationResult :=
  match nearest_two db steamid64 with
  | [(lower_id, lower_time), (upper_id, upper_time)] =>
    let local_slope : ℚ :=
      ((upper_time : ℚ) - (lower_time : ℚ)) /
        ((upper_id : ℚ) - (lower_id : ℚ))
    let estimated_time : Int :=
      lower_time + ratTrunc (((steamid64 : ℚ) - (lower_id : ℚ)) * local_slope)
    let margin_of_error : Int :=
      calculate_error_range steamid64 lower_id lower_time upper_id upper_time
    some ⟨estimated_time, margin_of_error⟩
  | _ => none

/-- Modelled from the spec: "If it returns exactly two points, feed them
to the Estimator in ascending-identifier order (regardless of the order
`nearest_two` returned them)".  Identical interpolation formulas, but the
returned point with the smaller identifier serves as the lower reference
`(id_a, t_a)`.  Used only to compare against `estimate_from_db`. -/
def estimate_from_db_spec (db : Db) (steamid64 : Int) :
    Option EstimationResult :=
  match nearest_two db steamid64 with
  | [p, q] =>
    let a := if p.1 ≤ q.1 then p else q
    let b := if p.1 ≤ q.1 then q else p
    let local_slope : ℚ :=
      ((b.2 : ℚ) - (a.2 : ℚ)) / ((b.1 : ℚ) - (a.1 : ℚ))
    let estimated_time : Int :=
      a.2 + ratTrunc (((steamid64 : ℚ) - (a.1 : ℚ)) * local_slope)
    some ⟨estimated_time,
      calculate_error_range steamid64 a.1 a.2 b.1 b.2⟩
  | _ => none

/-- Per-request environment: the table contents, the Steam Web API's
behaviour for this identifier, and the store's reply to an insert attempt. -/
structure Env where
  db : Db
  api : SteamApi
  insertErr : Option StoreError
deriving DecidableEq, Repr

/-- Embedding of the estimation block at the bottom of the handler
(lines 101–109): run `estimate_from_db`; answer 500 on `None`, otherwise
serialize the estimation.  The table is not written on this path. -/
def estimation_fallback (env : Env) (steamid64 : Int) : RunResult :=
  match estimate_from_db env.db steamid64 with
  | none =>
    { response := some (.internalError "Could not get DB estimation."),
      db := env.db, upstreamCalls := 1, cacheReads := 2, cacheWrites := 0 }
  | some estimation =>
    { response :=
        some (.okJson (toString steamid64) estimation.timecreated
          estimation.error),
      db := env.db, upstreamCalls := 1, cacheReads := 2, cacheWrites := 0 }

/-- Embedding of the handler `lookup_steam_id`.  Parse the `steamid64`
query parameter (400 on failure); return a cached value with error 0;
otherwise call the Steam Web API once: a failed send or a non-JSON body on
a success status yields a 500, a present `timecreated` is cached (panic if
the insert errors) and returned with error 0, and a non-success status or
a missing field falls through to `estimate_from_db` (500 if that yields
`None`). -/
def lookup_steam_id (env : Env) (raw : String) : RunResult :=
  match parse_i64 raw with
  | none =>
    { response := some (.badRequest "Bad Steam ID."), db := env.db,
      upstreamCalls := 0, cacheReads := 0, cacheWrites := 0 }
  | some steamid64 =>
    match check_cache env.db steamid64 with
    | some cached_time =>
      { response := some (.okJson (toString steamid64) cached_time 0),
        db := env.db, upstreamCalls := 0, cacheReads := 1, cacheWrites := 0 }
    | none =>
      match env.api with
      | .sendErr =>
        { response := some (.internalError "Could not GET Steam API"),
          db := env.db, upstreamCalls := 1, cacheReads := 1,
          cacheWrites := 0 }
      | .resp success body =>
        if success then
          match body with
          | .notJson =>
            { response :=
                some (.internalError "Steam API response is not JSON"),
              db := env.db, upstreamCalls := 1, cacheReads := 1,
              cacheWrites := 0 }
          | .jsonTimecreated ts =>
            match cache_result env.db steamid64 ts env.insertErr with
            | none =>
              { response := none, db := env.db, upstreamCalls := 1,
                cacheReads := 1, cacheWrites := 1 }
            | some db2 =>
              { response := some (.okJson (toString steamid64) ts 0),
                db := db2, upstreamCalls := 1, cacheReads := 1,
                cacheWrites := 1 }
          | .jsonMissing => estimation_fallback env steamid64
        else estimation_fallback env steamid64

example : parse_i64 "300" = some 300 := by decide
example : parse_i64 "-42" = some (-42) := by decide
example : parse_i64 "abc" = none := by decide
example : parse_i64 "" = none := by decide
example : parse_i64 "9223372036854775807" = some 9223372036854775807 := by
  decide
example : parse_i64 "9223372036854775808" = none := by decide
example : parse_i64 "-9223372036854775808" = some (-9223372036854775808) := by
  decide
example : nearest_two [(100, 1000), (200, 2000)] 300 =
    [(200, 2000), (100, 1000)] := by decide
/-- Concrete run of the estimator: references `(100, 1000)` and
`(200, 2000)`, target `150` (equidistant tie, table order). -/
lemma estimate_concrete_150 :
    estimate_from_db [(100, 1000), (200, 2000)] 150 = some ⟨1500, 500⟩ := by
  simp [estimate_from_db, nearest_two, sortByDist, insertByDist, rowDist,
    calculate_error_range]
  norm_num [ratTrunc]

/-- Concrete run of the estimator with the same two references stored in
the opposite table order (the other resolution of the distance tie). -/
lemma estimate_concrete_150_rev :
    estimate_from_db [(200, 2000), (100, 1000)] 150 = some ⟨1500, 500⟩ := by
  simp [estimate_from_db, nearest_two, sortByDist, insertByDist, rowDist,
    calculate_error_range]
  norm_num [ratTrunc]

/-- Concrete run of the estimator: references `(100, 1000)` and
`(200, 2000)`, target `300`.  `nearest_two` returns `(200, 2000)` first
(distance 100 against 200), so the margin is computed from the nearer
point: `|10 * (300 - 200)| = 1000`, not `2000`. -/
lemma estimate_concrete_300 :
    estimate_from_db [(100, 1000), (200, 2000)] 300 = some ⟨3000, 1000⟩ := by
  simp [estimate_from_db, nearest_two, sortByDist, insertByDist, rowDist,
    calculate_error_range]
  norm_num [ratTrunc]

/-! Branch lemmas: one per control-flow branch of the handler. -/

/-- Parse failure branch (line 60–62). -/
lemma lookup_parse_fail (env : Env) (raw : String)
    (hp : parse_i64 raw = none) :
    lookup_steam_id env raw =
      ⟨some (.badRequest "Bad Steam ID."), env.db, 0, 0, 0⟩ := by
  simp [lookup_steam_id, hp]

/-- Cache hit branch (lines 67–73). -/
lemma lookup_cache_hit (env : Env) (raw : String) (n t : Int)
    (hp : parse_i64 raw = some n) (hc : check_cache env.db n = some t) :
    lookup_steam_id env raw =
      ⟨some (.okJson (toString n) t 0), env.db, 0, 1, 0⟩ := by
  simp [lookup_steam_id, hp, hc]

/-- Failed-send branch (lines 82–84). -/
lemma lookup_send_err (env : Env) (raw : String) (n : Int)
    (hp : parse_i64 raw = some n) (hc : check_cache env.db n = none)
    (ha : env.api = .sendErr) :
    lookup_steam_id env raw =
      ⟨some (.internalError "Could not GET Steam API"), env.db, 1, 1, 0⟩ := by
  simp [lookup_steam_id, hp, hc, ha]

/-- Non-JSON-body branch (lines 87–89): status was a success but the body
did not parse as JSON. -/
lemma lookup_not_json (env : Env) (raw : String) (n : Int)
    (hp : parse_i64 raw = some n) (hc : check_cache env.db n = none)
    (ha : env.api = .resp true .notJson) :
    lookup_steam_id env raw =
      ⟨some (.internalError "Steam API response is not JSON"), env.db,
        1, 1, 0⟩ := by
  simp [lookup_steam_id, hp, hc, ha]

/-- Upstream-hit branch (lines 90–98) with a successful insert. -/
lemma lookup_found_insert_ok (env : Env) (raw : String) (n ts : Int)
    (hp : parse_i64 raw = some n) (hc : check_cache env.db n = none)
    (ha : env.api = .resp true (.jsonTimecreated ts))
    (hi : env.insertErr = none) :
    lookup_steam_id env raw =
      ⟨some (.okJson (toString n) ts 0), env.db ++ [(n, ts)], 1, 1, 1⟩ := by
  simp [lookup_steam_id, hp, hc, ha, cache_result, hi]

/-- Upstream-hit branch when the insert reports a store error: the
`.unwrap()` in `cache_result` panics before any response is produced. -/
lemma lookup_found_insert_err (env : Env) (raw : String) (n ts : Int)
    (e : StoreError)
    (hp : parse_i64 raw = some n) (hc : check_cache env.db n = none)
    (ha : env.api = .resp true (.jsonTimecreated ts))
    (hi : env.insertErr = some e) :
    lookup_steam_id env raw = ⟨none, env.db, 1, 1, 1⟩ := by
  simp [lookup_steam_id, hp, hc, ha, cache_result, hi]

/-- Non-success-status branch: the body is never inspected and control
falls through to the estimation block. -/
lemma lookup_non_success (env : Env) (raw : String) (n : Int)
    (body : ApiBody)
    (hp : parse_i64 raw = some n) (hc : check_cache env.db n = none)
    (ha : env.api = .resp false body) :
    lookup_steam_id env raw = estimation_fallback env n := by
  simp [lookup_steam_id, hp, hc, ha]

/-- Missing-`timecreated` branch: a success status whose JSON body has no
readable `timecreated` falls through to the estimation block. -/
lemma lookup_json_missing (env : Env) (raw : String) (n : Int)
    (hp : parse_i64 raw = some n) (hc : check_cache env.db n = none)
    (ha : env.api = .resp true .jsonMissing) :
    lookup_steam_id env raw = estimation_fallback env n := by
  simp [lookup_steam_id, hp, hc, ha]

/-- On every path past a successful parse, the response is an `okJson`, an
`internalError`, or a panic — never the 400 `badRequest`. -/
lemma lookup_no_bad_request (env : Env) (raw : String) (n : Int)
    (hp : parse_i64 raw = some n) (s : String) :
    (lookup_steam_id env raw).response ≠ some (.badRequest s) := by
  rcases hc : check_cache env.db n with _ | t
  · rcases ha : env.api with _ | ⟨success, body⟩
    · rw [lookup_send_err env raw n hp hc ha]; simp
    · cases success
      · rw [lookup_non_success env raw n body hp hc ha]
        rcases hE : estimate_from_db env.db n with _ | est <;>
          simp [estimation_fallback, hE]
      · cases body
        · rw [lookup_not_json env raw n hp hc ha]; simp
        · rw [lookup_json_missing env raw n hp hc ha]
          rcases hE : estimate_from_db env.db n with _ | est <;>
            simp [estimation_fallback, hE]
        · rcases hi : env.insertErr with _ | e
          · rw [lookup_found_insert_ok env raw n _ hp hc ha hi]; simp
          · rw [lookup_found_insert_err env raw n _ e hp hc ha hi]; simp
  · rw [lookup_cache_hit env raw n t hp hc]; simp

/-- C6: for every identifier already present in the Cache Store, resolution
returns the stored `created_at` with `error_margin = 0`, performs no
upstream call and no cache write, and leaves the table unchanged. -/
theorem C6_cache_hit_exact (env : Env) (raw : String) (n t : Int)
    (hp : parse_i64 raw = some n) (hc : check_cache env.db n = some t) :
    lookup_steam_id env raw =
      ⟨some (.okJson (toString n) t 0), env.db, 0, 1, 0⟩ :=
  lookup_cache_hit env raw n t hp hc

/-- Witness for C6 at a concrete input: identifier 7 cached with
timestamp 99. -/
theorem C6_cache_hit_exact_witness :
    lookup_steam_id ⟨[(7, 99)], .sendErr, none⟩ "7" =
      ⟨some (.okJson (toString (7 : Int)) 99 0), [(7, 99)], 0, 1, 0⟩ :=
  C6_cache_hit_exact ⟨[(7, 99)], .sendErr, none⟩ "7" 7 99 (by decide)
    (by decide)

/-- C7: for every identifier absent from the cache for which the upstream
call yields a `timecreated` and the insert succeeds, resolution returns
that timestamp with `error_margin = 0` and the table afterwards contains
the record. -/
theorem C7_upstream_hit (env : Env) (raw : String) (n ts : Int)
    (hp : parse_i64 raw = some n) (hc : check_cache env.db n = none)
    (ha : env.api = .resp true (.jsonTimecreated ts))
    (hi : env.insertErr = none) :
    (lookup_steam_id env raw).response = some (.okJson (toString n) ts 0) ∧
      (n, ts) ∈ (lookup_steam_id env raw).db := by
  rw [lookup_found_insert_ok env raw n ts hp hc ha hi]
  simp

/-- Witness for C7: empty cache, identifier 42, upstream timestamp 555. -/
theorem C7_upstream_hit_witness :
    (lookup_steam_id ⟨[], .resp true (.jsonTimecreated 555), none⟩
        "42").response = some (.okJson (toString (42 : Int)) 555 0) ∧
      ((42 : Int), (555 : Int)) ∈
        (lookup_steam_id ⟨[], .resp true (.jsonTimecreated 555), none⟩
          "42").db :=
  C7_upstream_hit ⟨[], .resp true (.jsonTimecreated 555), none⟩ "42" 42 555
    (by decide) (by decide) rfl rfl

/-- C10: a request whose `steamid64` parameter does not parse as an `i64`
gets the 400 response with no upstream call, no cache read and no cache
write; any string that does parse — negative values included — is never
answered with the 400 and proceeds to resolution. -/
theorem C10_parse_gate (env : Env) (raw : String) :
    (parse_i64 raw = none →
      lookup_steam_id env raw =
        ⟨some (.badRequest "Bad Steam ID."), env.db, 0, 0, 0⟩) ∧
    (∀ n, parse_i64 raw = some n →
      (lookup_steam_id env raw).response ≠
        some (.badRequest "Bad Steam ID.")) :=
  ⟨fun hp => lookup_parse_fail env raw hp,
   fun n hp => lookup_no_bad_request env raw n hp _⟩

/-- Witness for C10: the non-numeric string is rejected with 400 and the
state untouched; the negative identifier string is not rejected. -/
theorem C10_parse_gate_witness :
    lookup_steam_id ⟨[(1, 2)], .sendErr, none⟩ "76561not" =
      ⟨some (.badRequest "Bad Steam ID."), [(1, 2)], 0, 0, 0⟩ ∧
    (lookup_steam_id ⟨[(1, 2)], .sendErr, none⟩ "-5").response ≠
      some (.badRequest "Bad Steam ID.") :=
  ⟨(C10_parse_gate ⟨[(1, 2)], .sendErr, none⟩ "76561not").1 (by decide),
   (C10_parse_gate ⟨[(1, 2)], .sendErr, none⟩ "-5").2 (-5) (by decide)⟩

/-- C2 counterexample: empty cache, upstream finds timestamp 555 for
identifier 42, but the store answers the insert with a duplicate-key
conflict.  `cache_result`'s `.unwrap()` panics, so no response — in
particular not the exact result — is returned to the caller. -/
theorem C2_counterexample :
    (lookup_steam_id
        ⟨[], .resp true (.jsonTimecreated 555), some .conflict⟩
        "42").response = none ∧
    (lookup_steam_id
        ⟨[], .resp true (.jsonTimecreated 555), some .conflict⟩
        "42").response ≠ some (.okJson (toString (42 : Int)) 555 0) := by
  rw [lookup_found_insert_err
    ⟨[], .resp true (.jsonTimecreated 555), some .conflict⟩ "42" 42 555
    .conflict (by decide) (by decide) rfl rfl]
  simp

/-- C2 amended: on the upstream-hit path the exact result is returned and
cached when the insert succeeds; when the store reports any error on the
insert — duplicate-key conflict or storage unavailable alike — the handler
panics on `.unwrap()` and returns nothing, rather than swallowing the
conflict or soft-failing. -/
theorem C2_insert_failure_panics (env : Env) (raw : String) (n ts : Int)
    (hp : parse_i64 raw = some n) (hc : check_cache env.db n = none)
    (ha : env.api = .resp true (.jsonTimecreated ts)) :
    (env.insertErr = none →
      lookup_steam_id env raw =
        ⟨some (.okJson (toString n) ts 0), env.db ++ [(n, ts)], 1, 1, 1⟩) ∧
    (∀ e, env.insertErr = some e →
      (lookup_steam_id env raw).response = none) :=
  ⟨fun hi => lookup_found_insert_ok env raw n ts hp hc ha hi,
   fun e hi => by
    rw [lookup_found_insert_err env raw n ts e hp hc ha hi]⟩

/-- Witness for C2 amended: insert success returns and caches the exact
value; an unavailable store on insert makes the same request panic. -/
theorem C2_insert_failure_panics_witness :
    lookup_steam_id ⟨[], .resp true (.jsonTimecreated 555), none⟩ "42" =
      ⟨some (.okJson (toString (42 : Int)) 555 0), [(42, 555)], 1, 1, 1⟩ ∧
    (lookup_steam_id
        ⟨[], .resp true (.jsonTimecreated 555), some .unavailable⟩
        "42").response = none :=
  ⟨(C2_insert_failure_panics ⟨[], .resp true (.jsonTimecreated 555), none⟩
      "42" 42 555 (by decide) (by decide) rfl).1 rfl,
   (C2_insert_failure_panics
      ⟨[], .resp true (.jsonTimecreated 555), some .unavailable⟩
      "42" 42 555 (by decide) (by decide) rfl).2 .unavailable rfl⟩

/-- Table contents after any run: either unchanged, or exactly one
upstream-confirmed row was appended. -/
lemma lookup_db_cases (env : Env) (raw : String) :
    (lookup_steam_id env raw).db = env.db ∨
      ∃ n ts, parse_i64 raw = some n ∧
        env.api = .resp true (.jsonTimecreated ts) ∧
        (lookup_steam_id env raw).db = env.db ++ [(n, ts)] := by
  rcases hp : parse_i64 raw with _ | n
  · left; rw [lookup_parse_fail env raw hp]
  · rcases hc : check_cache env.db n with _ | t
    · rcases ha : env.api with _ | ⟨success, body⟩
      · left; rw [lookup_send_err env raw n hp hc ha]
      · cases success
        · left
          rw [lookup_non_success env raw n body hp hc ha]
          rcases hE : estimate_from_db env.db n with _ | est <;>
            simp [estimation_fallback, hE]
        · cases body with
          | notJson => left; rw [lookup_not_json env raw n hp hc ha]
          | jsonMissing =>
            left
            rw [lookup_json_missing env raw n hp hc ha]
            rcases hE : estimate_from_db env.db n with _ | est <;>
              simp [estimation_fallback, hE]
          | jsonTimecreated ts =>
            rcases hi : env.insertErr with _ | e
            · right
              exact ⟨n, ts, rfl, rfl, by
                rw [lookup_found_insert_ok env raw n ts hp hc ha hi]⟩
            · left
              rw [lookup_found_insert_err env raw n ts e hp hc ha hi]
    · left; rw [lookup_cache_hit env raw n t hp hc]

/-- C9: cache purity.  If the upstream call did not produce a confirmed
`timecreated` — the estimation branch included — the table is unchanged;
and every row present after a run was either already present or is the
identifier paired with the timestamp the upstream service confirmed. -/
theorem C9_cache_purity (env : Env) (raw : String) :
    ((∀ ts, env.api ≠ .resp true (.jsonTimecreated ts)) →
      (lookup_steam_id env raw).db = env.db) ∧
    (∀ p, p ∈ (lookup_steam_id env raw).db →
      p ∈ env.db ∨ ∃ n ts, parse_i64 raw = some n ∧
        env.api = .resp true (.jsonTimecreated ts) ∧ p = (n, ts)) := by
  rcases lookup_db_cases env raw with h | ⟨n, ts, hp, ha, h⟩
  · exact ⟨fun _ => h, fun p hm => Or.inl (h ▸ hm)⟩
  · constructor
    · intro hno; exact absurd ha (hno ts)
    · intro p hm
      rw [h] at hm
      rcases List.mem_append.mp hm with h1 | h2
      · exact Or.inl h1
      · exact Or.inr ⟨n, ts, hp, ha, by simpa using h2⟩

/-- Witness for C9: an estimation-branch run leaves the table unchanged,
and the one row present after a concrete upstream-hit run is the
upstream-confirmed pair. -/
theorem C9_cache_purity_witness :
    (lookup_steam_id ⟨[(3, 4)], .resp false .jsonMissing, none⟩ "8").db =
      [(3, 4)] ∧
    (((42 : Int), (555 : Int)) ∈ ([] : Db) ∨
      ∃ n ts, parse_i64 "42" = some n ∧
        SteamApi.resp true (.jsonTimecreated 555) =
          .resp true (.jsonTimecreated ts) ∧
        ((42 : Int), (555 : Int)) = (n, ts)) :=
  ⟨(C9_cache_purity ⟨[(3, 4)], .resp false .jsonMissing, none⟩ "8").1
      (fun ts h => by simp at h),
   (C9_cache_purity ⟨[], .resp true (.jsonTimecreated 555), none⟩ "42").2
      (42, 555) (by decide)⟩

/-- C1 counterexample: with a populated cache able to estimate target 150,
a failed HTTP send yields the direct 500 "Could not GET Steam API", and a
success status with a non-JSON body yields the direct 500 "Steam API
response is not JSON" — neither reaches the estimation path, whose answer
for this cache would have been the estimate `(1500, 500)`. -/
theorem C1_counterexample :
    (lookup_steam_id ⟨[(100, 1000), (200, 2000)], .sendErr, none⟩
        "150").response = some (.internalError "Could not GET Steam API") ∧
    (lookup_steam_id
        ⟨[(100, 1000), (200, 2000)], .resp true .notJson, none⟩
        "150").response =
      some (.internalError "Steam API response is not JSON") ∧
    estimate_from_db [(100, 1000), (200, 2000)] 150 = some ⟨1500, 500⟩ ∧
    some (Response.internalError "Could not GET Steam API") ≠
      some (.okJson (toString (150 : Int)) 1500 500) := by
  refine ⟨?_, ?_, estimate_concrete_150, by simp⟩
  · rw [lookup_send_err ⟨[(100, 1000), (200, 2000)], .sendErr, none⟩
      "150" 150 (by decide) (by decide) rfl]
  · rw [lookup_not_json
      ⟨[(100, 1000), (200, 2000)], .resp true .notJson, none⟩
      "150" 150 (by decide) (by decide) rfl]

/-- C1 amended: only a non-success upstream status or a success response
whose JSON lacks `timecreated` fall back to the estimation path; a failed
send or a malformed (non-JSON) body on a success status returns a 500
error directly, without consulting the cache for estimation. -/
theorem C1_fallback_conditions (env : Env) (raw : String) (n : Int)
    (hp : parse_i64 raw = some n) (hc : check_cache env.db n = none) :
    (env.api = .sendErr →
      lookup_steam_id env raw =
        ⟨some (.internalError "Could not GET Steam API"), env.db,
          1, 1, 0⟩) ∧
    (env.api = .resp true .notJson →
      lookup_steam_id env raw =
        ⟨some (.internalError "Steam API response is not JSON"), env.db,
          1, 1, 0⟩) ∧
    (∀ body, env.api = .resp false body →
      lookup_steam_id env raw = estimation_fallback env n) ∧
    (env.api = .resp true .jsonMissing →
      lookup_steam_id env raw = estimation_fallback env n) :=
  ⟨fun ha => lookup_send_err env raw n hp hc ha,
   fun ha => lookup_not_json env raw n hp hc ha,
   fun body ha => lookup_non_success env raw n body hp hc ha,
   fun ha => lookup_json_missing env raw n hp hc ha⟩

/-- Witness for C1 amended: a failed send answers 500 directly, while a
non-success status takes the estimation fallback. -/
theorem C1_fallback_conditions_witness :
    lookup_steam_id ⟨[], .sendErr, none⟩ "5" =
      ⟨some (.internalError "Could not GET Steam API"), [], 1, 1, 0⟩ ∧
    lookup_steam_id ⟨[], .resp false .notJson, none⟩ "5" =
      estimation_fallback ⟨[], .resp false .notJson, none⟩ 5 :=
  ⟨(C1_fallback_conditions ⟨[], .sendErr, none⟩ "5" 5 (by decide)
      (by decide)).1 rfl,
   (C1_fallback_conditions ⟨[], .resp false .notJson, none⟩ "5" 5
      (by decide) (by decide)).2.2.1 .notJson rfl⟩

/-- Concrete run of the spec-ordered estimator on the extrapolation
scenario: the smaller identifier 100 serves as the lower reference, so the
margin is `|10 * (300 - 100)| = 2000`. -/
lemma estimate_spec_concrete_300 :
    estimate_from_db_spec [(100, 1000), (200, 2000)] 300 =
      some ⟨3000, 2000⟩ := by
  simp [estimate_from_db_spec, nearest_two, sortByDist, insertByDist,
    rowDist, calculate_error_range]
  norm_num [ratTrunc]

/-- C3 counterexample: for target 300 against references `(100, 1000)` and
`(200, 2000)`, `nearest_two` returns the nearer `(200, 2000)` first; the
code feeds the points in that returned order and produces margin 1000,
while feeding them in ascending-identifier order (as the claim states)
produces margin 2000. -/
theorem C3_counterexample :
    nearest_two [(100, 1000), (200, 2000)] 300 =
      [(200, 2000), (100, 1000)] ∧
    estimate_from_db [(100, 1000), (200, 2000)] 300 = some ⟨3000, 1000⟩ ∧
    estimate_from_db_spec [(100, 1000), (200, 2000)] 300 =
      some ⟨3000, 2000⟩ ∧
    (⟨3000, 1000⟩ : EstimationResult) ≠ ⟨3000, 2000⟩ :=
  ⟨by decide, estimate_concrete_300, estimate_spec_concrete_300, by decide⟩

/-- C3 amended: when the nearest-two query returns exactly two points, the
engine feeds them to the estimator in the order the query returned them
(distance ascending): the first returned point, nearer to the target,
serves as the lower reference in both the interpolation and the margin. -/
theorem C3_distance_order_feeding (db : Db) (id : Int) (p q : Int × Int)
    (h : nearest_two db id = [p, q]) :
    estimate_from_db db id =
      some ⟨p.2 + ratTrunc (((id : ℚ) - (p.1 : ℚ)) *
          (((q.2 : ℚ) - (p.2 : ℚ)) / ((q.1 : ℚ) - (p.1 : ℚ)))),
        calculate_error_range id p.1 p.2 q.1 q.2⟩ := by
  obtain ⟨p1, p2⟩ := p
  obtain ⟨q1, q2⟩ := q
  simp [estimate_from_db, h]

/-- Witness for C3 amended at the extrapolation scenario inputs. -/
theorem C3_distance_order_feeding_witness :
    estimate_from_db [(100, 1000), (200, 2000)] 300 =
      some ⟨2000 + ratTrunc (((300 : ℚ) - (200 : ℚ)) *
          (((1000 : ℚ) - (2000 : ℚ)) / ((100 : ℚ) - (200 : ℚ)))),
        calculate_error_range 300 200 2000 100 1000⟩ :=
  C3_distance_order_feeding [(100, 1000), (200, 2000)] 300 (200, 2000)
    (100, 1000) (by decide)

/-- C4 counterexample: in the extrapolation scenario (cache `(100, 1000)`
and `(200, 2000)`, target 300, upstream without a timestamp) the handler
answers with `error_margin = 1000`, not the claimed 2000. -/
theorem C4_counterexample :
    (lookup_steam_id
        ⟨[(100, 1000), (200, 2000)], .resp false .jsonMissing, none⟩
        "300").response =
      some (.okJson (toString (300 : Int)) 3000 1000) ∧
    some (Response.okJson (toString (300 : Int)) 3000 1000) ≠
      some (.okJson (toString (300 : Int)) 3000 2000) := by
  constructor
  · rw [lookup_non_success
      ⟨[(100, 1000), (200, 2000)], .resp false .jsonMissing, none⟩
      "300" 300 .jsonMissing (by decide) (by decide) rfl]
    simp [estimation_fallback, estimate_concrete_300]
  · simp

/-- C4 amended: the extrapolation scenario returns `created_at = 3000`
with `error_margin = 1000` (the margin is measured from the nearer
reference `(200, 2000)`), for a non-success upstream status as well as for
a success status whose JSON lacks `timecreated`, and the table is
unchanged. -/
theorem C4_extrapolation :
    lookup_steam_id
        ⟨[(100, 1000), (200, 2000)], .resp false .jsonMissing, none⟩
        "300" =
      ⟨some (.okJson (toString (300 : Int)) 3000 1000),
        [(100, 1000), (200, 2000)], 1, 2, 0⟩ ∧
    lookup_steam_id
        ⟨[(100, 1000), (200, 2000)], .resp true .jsonMissing, none⟩
        "300" =
      ⟨some (.okJson (toString (300 : Int)) 3000 1000),
        [(100, 1000), (200, 2000)], 1, 2, 0⟩ := by
  constructor
  · rw [lookup_non_success
      ⟨[(100, 1000), (200, 2000)], .resp false .jsonMissing, none⟩
      "300" 300 .jsonMissing (by decide) (by decide) rfl]
    simp [estimation_fallback, estimate_concrete_300]
  · rw [lookup_json_missing
      ⟨[(100, 1000), (200, 2000)], .resp true .jsonMissing, none⟩
      "300" 300 (by decide) (by decide) rfl]
    simp [estimation_fallback, estimate_concrete_300]

/-- C5: in the interpolation scenario (cache `(100, 1000)` and
`(200, 2000)`, target 150, upstream without a timestamp) the handler
answers `created_at = 1500` with `error_margin = 500` and leaves the table
unchanged — under either resolution of the nearest-two distance tie
(either table order), and for a non-success status as well as for a
missing `timecreated` field. -/
theorem C5_interpolation :
    lookup_steam_id
        ⟨[(100, 1000), (200, 2000)], .resp false .jsonMissing, none⟩
        "150" =
      ⟨some (.okJson (toString (150 : Int)) 1500 500),
        [(100, 1000), (200, 2000)], 1, 2, 0⟩ ∧
    lookup_steam_id
        ⟨[(200, 2000), (100, 1000)], .resp false .jsonMissing, none⟩
        "150" =
      ⟨some (.okJson (toString (150 : Int)) 1500 500),
        [(200, 2000), (100, 1000)], 1, 2, 0⟩ ∧
    lookup_steam_id
        ⟨[(100, 1000), (200, 2000)], .resp true .jsonMissing, none⟩
        "150" =
      ⟨some (.okJson (toString (150 : Int)) 1500 500),
        [(100, 1000), (200, 2000)], 1, 2, 0⟩ := by
  refine ⟨?_, ?_, ?_⟩
  · rw [lookup_non_success
      ⟨[(100, 1000), (200, 2000)], .resp false .jsonMissing, none⟩
      "150" 150 .jsonMissing (by decide) (by decide) rfl]
    simp [estimation_fallback, estimate_concrete_150]
  · rw [lookup_non_success
      ⟨[(200, 2000), (100, 1000)], .resp false .jsonMissing, none⟩
      "150" 150 .jsonMissing (by decide) (by decide) rfl]
    simp [estimation_fallback, estimate_concrete_150_rev]
  · rw [lookup_json_missing
      ⟨[(100, 1000), (200, 2000)], .resp true .jsonMissing, none⟩
      "150" 150 (by decide) (by decide) rfl]
    simp [estimation_fallback, estimate_concrete_150]

/-- With fewer than two rows in the table, the nearest-two query cannot
return two rows and `estimate_from_db` yields `None` before any
arithmetic. -/
lemma estimate_short (db : Db) (n : Int) (h : db.length < 2) :
    estimate_from_db db n = none := by
  match db, h with
  | [], _ => rfl
  | [p], _ =>
    simp [estimate_from_db, nearest_two, sortByDist, insertByDist]

/-- Inserting a row by distance is a permutation of consing it. -/
lemma insertByDist_perm (t : Int) (p : Int × Int) (l : List (Int × Int)) :
    (insertByDist t p l).Perm (p :: l) := by
  induction l with
  | nil => simp [insertByDist]
  | cons q qs ih =>
    simp only [insertByDist]
    split
    · exact List.Perm.refl _
    · exact (ih.cons q).trans (List.Perm.swap p q qs)

/-- The nearest-two distance sort is a permutation of the table. -/
lemma sortByDist_perm (t : Int) (db : Db) :
    (sortByDist t db).Perm db := by
  induction db with
  | nil => simp [sortByDist]
  | cons p ps ih =>
    exact (insertByDist_perm t p (sortByDist t ps)).trans (ih.cons p)

/-- When the table's identifiers are pairwise distinct — the `steamid64`
column is the table key, so duplicate inserts conflict — the two rows the
nearest-two query returns carry distinct identifiers.  Consequently the
estimator's slope divisor `upper_id - lower_id` is never zero on any run
this development analyses. -/
lemma nearest_two_distinct_ids (db : Db) (n : Int)
    (hnd : (db.map Prod.fst).Nodup) (p q : Int × Int)
    (h : nearest_two db n = [p, q]) : p.1 ≠ q.1 := by
  have hperm : ((sortByDist n db).map Prod.fst).Perm (db.map Prod.fst) :=
    (sortByDist_perm n db).map Prod.fst
  have hnd2 : ((sortByDist n db).map Prod.fst).Nodup :=
    hperm.nodup_iff.mpr hnd
  have hsub : (nearest_two db n).Sublist (sortByDist n db) :=
    List.take_sublist 2 (sortByDist n db)
  have hnd3 : ((nearest_two db n).map Prod.fst).Nodup :=
    hnd2.sublist (hsub.map Prod.fst)
  rw [h] at hnd3
  simpa using hnd3

/-- The estimation block never touches the table. -/
lemma estimation_fallback_db (env : Env) (n : Int) :
    (estimation_fallback env n).db = env.db := by
  rcases hE : estimate_from_db env.db n with _ | est <;>
    simp [estimation_fallback, hE]

/-- A cache miss for `n` means no row of the table carries the key `n`. -/
lemma check_cache_none_not_mem (db : Db) (n : Int)
    (hc : check_cache db n = none) : n ∉ db.map Prod.fst := by
  intro hmem
  obtain ⟨p, hpmem, hfst⟩ := List.mem_map.mp hmem
  have hfind : db.find? (fun p => p.1 == n) = none := by
    unfold check_cache at hc
    exact Option.map_eq_none.mp hc
  have := List.find?_eq_none.mp hfind p hpmem
  simp [hfst] at this

/-- The handler maintains the table's unique-identifier invariant: the
only write appends a key the preceding cache lookup just reported
absent. -/
lemma lookup_preserves_key_nodup (env : Env) (raw : String)
    (h : (env.db.map Prod.fst).Nodup) :
    ((lookup_steam_id env raw).db.map Prod.fst).Nodup := by
  rcases hp : parse_i64 raw with _ | n
  · rw [lookup_parse_fail env raw hp]; exact h
  · rcases hc : check_cache env.db n with _ | t
    · rcases ha : env.api with _ | ⟨success, body⟩
      · rw [lookup_send_err env raw n hp hc ha]; exact h
      · cases success
        · rw [lookup_non_success env raw n body hp hc ha,
            estimation_fallback_db]
          exact h
        · cases body with
          | notJson => rw [lookup_not_json env raw n hp hc ha]; exact h
          | jsonMissing =>
            rw [lookup_json_missing env raw n hp hc ha,
              estimation_fallback_db]
            exact h
          | jsonTimecreated ts =>
            rcases hi : env.insertErr with _ | e
            · rw [lookup_found_insert_ok env raw n ts hp hc ha hi]
              have hnotin := check_cache_none_not_mem env.db n hc
              simp [List.nodup_append, h, hnotin]
            · rw [lookup_found_insert_err env raw n ts e hp hc ha hi]
              exact h
    · rw [lookup_cache_hit env raw n t hp hc]; exact h

/-- C8: on a run that reaches the estimation block over a table whose
identifiers are pairwise distinct (the table key; the handler itself
maintains this, `lookup_preserves_key_nodup`), estimation is never
attempted with two equal-identifier reference points — the nearest-two
query returns distinct identifiers, so the estimator's slope divisor is
nonzero and no division by zero is performed; with fewer than two
available records the resolution fails with the explicit 500 "Could not
get DB estimation." response; and in every case a response is produced
(no crash). -/
theorem C8_unresolvable_guard (env : Env) (raw : String) (n : Int)
    (hp : parse_i64 raw = some n) (hc : check_cache env.db n = none)
    (hnd : (env.db.map Prod.fst).Nodup)
    (ha : (∃ body, env.api = .resp false body) ∨
      env.api = .resp true .jsonMissing) :
    (∀ p q, nearest_two env.db n = [p, q] →
      p.1 ≠ q.1 ∧ ((q.1 : ℚ) - (p.1 : ℚ)) ≠ 0) ∧
    (env.db.length < 2 →
      lookup_steam_id env raw =
        ⟨some (.internalError "Could not get DB estimation."), env.db,
          1, 2, 0⟩) ∧
    (lookup_steam_id env raw).response ≠ none := by
  have hfb : lookup_steam_id env raw = estimation_fallback env n := by
    rcases ha with ⟨body, ha⟩ | ha
    · exact lookup_non_success env raw n body hp hc ha
    · exact lookup_json_missing env raw n hp hc ha
  refine ⟨?_, ?_, ?_⟩
  · intro p q hpq
    have h1 : p.1 ≠ q.1 := nearest_two_distinct_ids env.db n hnd p q hpq
    refine ⟨h1, fun h0 => h1 ?_⟩
    have h2 : (q.1 : ℚ) = (p.1 : ℚ) := sub_eq_zero.mp h0
    exact_mod_cast h2.symm
  · intro hlen
    rw [hfb]
    simp [estimation_fallback, estimate_short env.db n hlen]
  · rw [hfb]
    rcases hE : estimate_from_db env.db n with _ | est <;>
      simp [estimation_fallback, hE]

/-- Witness for C8 at a concrete input: a one-row table (unique keys,
fewer than two records) answers the explicit 500 and returns two
distinct-identifier reference points never (the nearest-two result has
one element). -/
theorem C8_unresolvable_guard_witness :
    ((∀ p q, nearest_two [(1, 2)] 5 = [p, q] →
        p.1 ≠ q.1 ∧ ((q.1 : ℚ) - (p.1 : ℚ)) ≠ 0) ∧
      ((([(1, 2)] : Db).length < 2) →
        lookup_steam_id ⟨[(1, 2)], .resp false .jsonMissing, none⟩ "5" =
          ⟨some (.internalError "Could not get DB estimation."), [(1, 2)],
            1, 2, 0⟩) ∧
      (lookup_steam_id ⟨[(1, 2)], .resp false .jsonMissing, none⟩
          "5").response ≠ none) ∧
    lookup_steam_id ⟨[(1, 2)], .resp false .jsonMissing, none⟩ "5" =
      ⟨some (.internalError "Could not get DB estimation."), [(1, 2)],
        1, 2, 0⟩ := by
  have h := C8_unresolvable_guard ⟨[(1, 2)], .resp false .jsonMissing,
    none⟩ "5" 5 (by decide) (by decide) (by decide)
    (Or.inl ⟨.jsonMissing, rfl⟩)
  exact ⟨h, h.2.1 (by decide)⟩
